import Mathlib

/-!
Shallow embedding of `src/streamlit_app.py` (a Streamlit front-end for an
MCP stdio client).  The asynchronous Python code is modelled by explicit
state passing: a `World` carries the transport-id counter, the Streamlit
session-state message list and a trace of observable events (transport
acquisition/release, protocol requests, UI output).  Exceptions — including
`asyncio` cancellation, which Python's `except Exception` does *not* catch —
are modelled by the `Res` result type.  The external `mcpcli` collaborators
(`load_config`, `stdio_client`, `send_initialize`, `send_ping`,
`send_tools_list`, `send_resources_list`, `handle_chat_mode`) are not part of
this repository's source; their outcomes are supplied by an `Env`, modelled
from the spec (§2, §4.1–§4.5).
-/

namespace MCPApp

/-- Python exception classes as the guards see them: `Exc.err m` is an
ordinary `Exception` with message `m` (caught by `except Exception`),
`Exc.cancel` is `asyncio.CancelledError` / scope cancellation, which derives
from `BaseException` and is *not* caught by `except Exception`. -/
inductive Exc where
  | err : String → Exc
  | cancel : Exc
deriving DecidableEq, Repr

/-- Result of running a piece of Python code: a value, or a raised exception
propagating out. -/
inductive Res (α : Type) where
  | ok : α → Res α
  | raised : Exc → Res α
deriving DecidableEq, Repr

/-- A tool descriptor as consumed by the Tools tab (`tool['name']`,
`tool['description']`). -/
structure Tool where
  name : String
  description : String
deriving DecidableEq, Repr

/-- Modelled from the spec: the JSON object answered to `tools/list`.
`tools = none` models a response object lacking the `"tools"` key, which
`response.get("tools", [])` defaults to the empty list. -/
structure ToolsResponse where
  tools : Option (List Tool)
deriving DecidableEq, Repr

/-- Modelled from the spec: the JSON object answered to `resources/list`;
resources are opaque to the app (it only `st.json`s them), so a resource is
modelled as a string. -/
structure ResourcesResponse where
  resources : Option (List String)
deriving DecidableEq, Repr

/-- One entry of `st.session_state.messages`. -/
structure Message where
  role : String
  content : String
deriving DecidableEq, Repr

/-- Observable events of one Streamlit script run.  Transport events carry
the transport id (one fresh id per `stdio_client` scope); `sendInitialize`,
`sendPing`, `sendToolsList`, `sendResourcesList` and `chatCall` mark protocol
requests issued on that transport; `uiError`/`uiSuccess`/`uiMarkdown`/`uiJson`
are Streamlit output calls. -/
inductive Event where
  | acquire : Nat → Event
  | release : Nat → Event
  | sendInitialize : Nat → Event
  | sendPing : Nat → Event
  | sendToolsList : Nat → Event
  | sendResourcesList : Nat → Event
  | chatCall : Nat → Event
  | uiError : String → Event
  | uiSuccess : String → Event
  | uiMarkdown : String → Event
  | uiJson : String → Event
deriving DecidableEq, Repr

/-- The mutable state threaded through a run: the next fresh transport id,
the chat history (`st.session_state.messages`) and the event trace. -/
structure World where
  nextTid : Nat
  messages : List Message
  trace : List Event
deriving DecidableEq, Repr

/-- Append one observable event to the trace. -/
def emit (e : Event) (w : World) : World :=
  { w with trace := w.trace ++ [e] }

/-- Append one chat message to `st.session_state.messages`. -/
def appendMessage (role content : String) (w : World) : World :=
  { w with messages := w.messages ++ [{ role := role, content := content }] }

/-- Modelled from the spec: the behaviour of the external `mcpcli`
collaborators, which are imported by `streamlit_app.py` but whose code is not
in this repository.  Each field gives the outcome of one awaited call;
per-transport fields are keyed by the transport id.  `sendInitialize`
returns the truthiness of `init_result` (§4.2: an `InitResult` or a
failure); `sendPing` returns the boolean liveness answer (§4.4: true iff a
well-formed response arrives before the timeout, false on timeout — a mere
timeout does not raise); `handleChatMode` returns the chat response
(`none` models Python `None`, `some ""` a falsy empty string). -/
structure Env where
  load_config : Res Unit
  acquire : Nat → Res Unit
  sendInitialize : Nat → Res Bool
  sendPing : Nat → Res Bool
  sendToolsList : Nat → Res ToolsResponse
  sendResourcesList : Nat → Res ResourcesResponse
  handleChatMode : Nat → Res (Option String)

/-- Occurrences of an event in a trace. -/
def cnt (e : Event) : List Event → Nat
  | [] => 0
  | x :: xs => (if x = e then 1 else 0) + cnt e xs

/-- The `managed_connection` asynccontextmanager (src lines 26–35), as used
by `async with managed_connection(config_path, server_name) as (read_stream,
write_stream): body`.  Semantics of `@asynccontextmanager`:

* `load_config` runs first; an exception propagates to the caller with no
  transport acquired;
* `async with stdio_client(server_params)` acquires a fresh transport
  (events `acquire tid`), or propagates a launch exception with no release;
* `send_initialize` is issued on the transport (`sendInitialize tid`); if it
  raises, the exception unwinds through the `stdio_client` scope, which
  releases the transport (`release tid`), and propagates;
* a truthy `init_result` yields the live stream pair `(some tid, some tid)`
  to the caller's body; a falsy one reports `st.error` and yields
  `(None, None)` i.e. `(none, none)`;
* whatever the body does — return normally, raise, or get cancelled — the
  generator is resumed or thrown into at the `yield`, the `stdio_client`
  scope exits and the transport is released exactly once. -/
def with_managed_connection {α : Type} (env : Env) (server_name : String)
    (body : Option Nat × Option Nat → World → Res α × World) (w : World) :
    Res α × World :=
  match env.load_config with
  | .raised e => (.raised e, w)
  | .ok _ =>
    match env.acquire w.nextTid with
    | .raised e => (.raised e, w)
    | .ok _ =>
      let tid := w.nextTid
      let w1 := emit (.sendInitialize tid) (emit (.acquire tid) { w with nextTid := tid + 1 })
      match env.sendInitialize tid with
      | .raised e => (.raised e, emit (.release tid) w1)
      | .ok true =>
        let p := body (some tid, some tid) w1
        (p.1, emit (.release tid) p.2)
      | .ok false =>
        let w2 := emit (.uiError ("Failed to initialize " ++ server_name)) w1
        let p := body (none, none) w2
        (p.1, emit (.release tid) p.2)

/-- `handle_chat_async` (src lines 49–56): wraps `handle_chat_mode` in
`try/except Exception`, reporting a chat error and returning `None` on an
ordinary exception; cancellation is not caught and propagates. -/
def handle_chat_async (env : Env) (read_stream write_stream : Nat)
    (prompt provider model : String) (w : World) : Res (Option String) × World :=
  let w1 := emit (.chatCall read_stream) w
  match env.handleChatMode read_stream with
  | .ok response => (.ok response, w1)
  | .raised (.err m) => (.ok none, emit (.uiError ("Chat error: " ++ m)) w1)
  | .raised .cancel => (.raised .cancel, w1)

/-- `list_tools_async` (src lines 58–64): `send_tools_list`, then
`response.get("tools", [])`; `except Exception` reports the error and
returns the empty list; cancellation propagates. -/
def list_tools_async (env : Env) (read_stream write_stream : Nat) (w : World) :
    Res (List Tool) × World :=
  let w1 := emit (.sendToolsList read_stream) w
  match env.sendToolsList read_stream with
  | .ok response => (.ok (response.tools.getD []), w1)
  | .raised (.err m) => (.ok [], emit (.uiError ("Error listing tools: " ++ m)) w1)
  | .raised .cancel => (.raised .cancel, w1)

/-- `list_resources_async` (src lines 66–72): analogous to
`list_tools_async` with `response.get("resources", [])`. -/
def list_resources_async (env : Env) (read_stream write_stream : Nat) (w : World) :
    Res (List String) × World :=
  let w1 := emit (.sendResourcesList read_stream) w
  match env.sendResourcesList read_stream with
  | .ok response => (.ok (response.resources.getD []), w1)
  | .raised (.err m) => (.ok [], emit (.uiError ("Error listing resources: " ++ m)) w1)
  | .raised .cancel => (.raised .cancel, w1)

/-- The states a config file at a given path can be in, as distinguished by
`open` / `json.load` / attribute access in `get_server_names` (src lines
74–81): missing or unreadable file, malformed JSON, a JSON value that is not
an object, an object whose `"mcpServers"` value is not an object, or an
object whose optional `"mcpServers"` object has the given keys. -/
inductive ConfigFile where
  | missing
  | unreadable
  | malformedJson
  | notAnObject
  | badServersValue
  | parsed : Option (List String) → ConfigFile
deriving DecidableEq, Repr

/-- The body of `get_server_names`'s `try` block:
`open(config_file)`, `json.load(f)`, `list(config.get("mcpServers", {}).keys())`,
with each failure mode raising the corresponding exception. -/
def read_config_body : ConfigFile → Res (List String)
  | .missing => .raised (.err "FileNotFoundError")
  | .unreadable => .raised (.err "PermissionError")
  | .malformedJson => .raised (.err "JSONDecodeError")
  | .notAnObject => .raised (.err "AttributeError")
  | .badServersValue => .raised (.err "AttributeError")
  | .parsed servers => .ok (servers.getD [])

/-- `get_server_names` (src lines 74–81): the `try` body above under
`except Exception`, which reports the error via `st.error` and returns the
empty list. -/
def get_server_names (config_file : ConfigFile) (w : World) :
    Res (List String) × World :=
  match read_config_body config_file with
  | .ok names => (.ok names, w)
  | .raised (.err m) => (.ok [], emit (.uiError ("Error loading server config: " ++ m)) w)
  | .raised .cancel => (.raised .cancel, w)

/-- The body of `process_chat`'s `async with` (src lines 112–122): guarded on
both streams being non-`None`; appends the user message, renders it, runs
`handle_chat_async`, and appends the assistant message iff the response is
truthy (not `None`, not the empty string). -/
def chatBody (env : Env) (prompt provider model : String)
    (streams : Option Nat × Option Nat) (w : World) : Res Unit × World :=
  match streams with
  | (some read_stream, some write_stream) =>
    let w1 := emit (.uiMarkdown prompt) (appendMessage "user" prompt w)
    let p := handle_chat_async env read_stream write_stream prompt provider model w1
    match p.1 with
    | .ok none => (.ok (), p.2)
    | .ok (some response) =>
      if response = "" then (.ok (), p.2)
      else (.ok (), appendMessage "assistant" response (emit (.uiMarkdown response) p.2))
    | .raised e => (.raised e, p.2)
  | (_, _) => (.ok (), w)

/-- The Tools tab's rendering loop (src lines 133–134):
`st.write(f"**{tool['name']}**: {tool['description']}")` for each tool. -/
def printTools : List Tool → World → World
  | [], w => w
  | t :: ts, w => printTools ts (emit (.uiMarkdown ("**" ++ t.name ++ "**: " ++ t.description)) w)

/-- The body of `process_tools`'s `async with` (src lines 130–134). -/
def toolsBody (env : Env) (streams : Option Nat × Option Nat) (w : World) :
    Res Unit × World :=
  match streams with
  | (some read_stream, some write_stream) =>
    let p := list_tools_async env read_stream write_stream w
    match p.1 with
    | .ok tools => (.ok (), printTools tools p.2)
    | .raised e => (.raised e, p.2)
  | (_, _) => (.ok (), w)

/-- The Resources tab's rendering loop (src lines 145–146):
`st.json(resource)` for each resource. -/
def printResources : List String → World → World
  | [], w => w
  | r :: rs, w => printResources rs (emit (.uiJson r) w)

/-- The body of `process_resources`'s `async with` (src lines 142–146). -/
def resourcesBody (env : Env) (streams : Option Nat × Option Nat) (w : World) :
    Res Unit × World :=
  match streams with
  | (some read_stream, some write_stream) =>
    let p := list_resources_async env read_stream write_stream w
    match p.1 with
    | .ok resources => (.ok (), printResources resources p.2)
    | .raised e => (.raised e, p.2)
  | (_, _) => (.ok (), w)

/-- The body of `process_ping`'s `async with` (src lines 154–160):
`send_ping` directly, then `st.success` / `st.error` on the boolean. -/
def pingBody (env : Env) (streams : Option Nat × Option Nat) (w : World) :
    Res Unit × World :=
  match streams with
  | (some read_stream, some write_stream) =>
    let w1 := emit (.sendPing read_stream) w
    match env.sendPing read_stream with
    | .ok true => (.ok (), emit (.uiSuccess "Server is responsive") w1)
    | .ok false => (.ok (), emit (.uiError "Server is not responding") w1)
    | .raised e => (.raised e, w1)
  | (_, _) => (.ok (), w)

/-- The body of `ensure_connection_async`'s `async with` (src lines 39–44):
on live streams, `send_ping`; a truthy result executes
`return read_stream, write_stream` (modelled `ok (some streams)`), a falsy
one falls off the `async with` (modelled `ok none`), and the function then
reaches its final `return None, None`. -/
def ensureBody (env : Env) (streams : Option Nat × Option Nat) (w : World) :
    Res (Option (Option Nat × Option Nat)) × World :=
  match streams with
  | (some read_stream, some write_stream) =>
    let w1 := emit (.sendPing read_stream) w
    match env.sendPing read_stream with
    | .ok true => (.ok (some (some read_stream, some write_stream)), w1)
    | .ok false => (.ok none, w1)
    | .raised e => (.raised e, w1)
  | (_, _) => (.ok none, w)

/-- `ensure_connection_async` (src lines 37–47): the `async with` above
inside `try/except Exception`; an ordinary exception is reported as a
connection error and the function returns `(None, None)`; cancellation
propagates.  A `return` inside the `async with` runs the scope's teardown
(transport release) before the function actually returns. -/
def ensure_connection_async (env : Env) (config_file server_name : String)
    (w : World) : Res (Option Nat × Option Nat) × World :=
  match with_managed_connection env server_name (ensureBody env) w with
  | (.ok (some streams), w1) => (.ok streams, w1)
  | (.ok none, w1) => (.ok (none, none), w1)
  | (.raised (.err m), w1) => (.ok (none, none), emit (.uiError ("Connection error: " ++ m)) w1)
  | (.raised .cancel, w1) => (.raised .cancel, w1)

/-- `process_chat` (src lines 111–124): one chat prompt's handler, run by
`asyncio.run`; opens its own `managed_connection` scope around `chatBody`. -/
def process_chat (env : Env) (config_file server_name prompt provider model : String)
    (w : World) : Res Unit × World :=
  with_managed_connection env server_name (chatBody env prompt provider model) w

/-- `process_tools` (src lines 129–136): one List Tools press's handler. -/
def process_tools (env : Env) (config_file server_name : String) (w : World) :
    Res Unit × World :=
  with_managed_connection env server_name (toolsBody env) w

/-- `process_resources` (src lines 141–148): one List Resources press's
handler. -/
def process_resources (env : Env) (config_file server_name : String) (w : World) :
    Res Unit × World :=
  with_managed_connection env server_name (resourcesBody env) w

/-- `process_ping` (src lines 153–162): one Ping Server press's handler. -/
def process_ping (env : Env) (config_file server_name : String) (w : World) :
    Res Unit × World :=
  with_managed_connection env server_name (pingBody env) w

/-- A scope body is passive when it only appends events to the trace, never
touches the transport-id counter, and its appended events contain no
transport acquisition, handshake or release (those belong to
`managed_connection` alone).  All four `async with` bodies of the app are
passive. -/
def PassiveBody {α : Type}
    (body : Option Nat × Option Nat → World → Res α × World) : Prop :=
  ∀ s w, ∃ d, (body s w).2.trace = w.trace ++ d ∧
    (body s w).2.nextTid = w.nextTid ∧
    ∀ t, cnt (.acquire t) d = 0 ∧ cnt (.sendInitialize t) d = 0 ∧
      cnt (.release t) d = 0

/-- Concrete world for witnesses: fresh transport counter, empty chat
history, empty trace. -/
def w0 : World := { nextTid := 0, messages := [], trace := [] }

/-- Concrete environment in which every external call succeeds. -/
def envAllOk : Env :=
  { load_config := .ok ()
    acquire := fun _ => .ok ()
    sendInitialize := fun _ => .ok true
    sendPing := fun _ => .ok true
    sendToolsList := fun _ => .ok
      { tools := some [{ name := "query", description := "Run a SQL query" }] }
    sendResourcesList := fun _ => .ok { resources := some ["memo"] }
    handleChatMode := fun _ => .ok (some "hello") }

/-- Environment whose handshake returns a falsy `init_result`. -/
def envInitFalse : Env := { envAllOk with sendInitialize := fun _ => .ok false }

/-- Environment whose ping times out (returns `False`). -/
def envPingFalse : Env := { envAllOk with sendPing := fun _ => .ok false }

/-- Environment whose `tools/list` exchange raises (transport closed). -/
def envToolsClosed : Env :=
  { envAllOk with sendToolsList := fun _ => .raised (.err "TransportClosed") }

/-- Environment whose `resources/list` exchange raises (transport closed). -/
def envResourcesClosed : Env :=
  { envAllOk with sendResourcesList := fun _ => .raised (.err "TransportClosed") }

/-- Environment whose server declares an empty tool set. -/
def envNoTools : Env :=
  { envAllOk with sendToolsList := fun _ => .ok { tools := some [] } }

@[simp] theorem cnt_nil (e : Event) : cnt e [] = 0 := rfl

@[simp] theorem cnt_cons (e x : Event) (xs : List Event) :
    cnt e (x :: xs) = (if x = e then 1 else 0) + cnt e xs := rfl

@[simp] theorem cnt_append (e : Event) (l1 l2 : List Event) :
    cnt e (l1 ++ l2) = cnt e l1 + cnt e l2 := by
  induction l1 with
  | nil => simp [cnt]
  | cons x xs ih => simp [cnt, ih, Nat.add_assoc]

/-- Equation for a `managed_connection` scope whose handshake succeeds: the
body runs on the live stream pair and the transport is released afterwards. -/
theorem wmc_run_true {α : Type} (env : Env) (server_name : String)
    (body : Option Nat × Option Nat → World → Res α × World) (w : World)
    (hl : env.load_config = .ok ()) (ha : env.acquire w.nextTid = .ok ())
    (hi : env.sendInitialize w.nextTid = .ok true) :
    with_managed_connection env server_name body w =
      ((body (some w.nextTid, some w.nextTid)
          (emit (.sendInitialize w.nextTid)
            (emit (.acquire w.nextTid) { w with nextTid := w.nextTid + 1 }))).1,
       emit (.release w.nextTid)
         (body (some w.nextTid, some w.nextTid)
           (emit (.sendInitialize w.nextTid)
             (emit (.acquire w.nextTid) { w with nextTid := w.nextTid + 1 }))).2) := by
  unfold with_managed_connection
  rw [hl, ha]
  dsimp only
  rw [hi]

/-- Equation for a `managed_connection` scope whose handshake returns a falsy
result: the failure is reported, the body runs on `(none, none)` and the
transport is still released afterwards. -/
theorem wmc_run_false {α : Type} (env : Env) (server_name : String)
    (body : Option Nat × Option Nat → World → Res α × World) (w : World)
    (hl : env.load_config = .ok ()) (ha : env.acquire w.nextTid = .ok ())
    (hi : env.sendInitialize w.nextTid = .ok false) :
    with_managed_connection env server_name body w =
      ((body (none, none)
          (emit (.uiError ("Failed to initialize " ++ server_name))
            (emit (.sendInitialize w.nextTid)
              (emit (.acquire w.nextTid) { w with nextTid := w.nextTid + 1 })))).1,
       emit (.release w.nextTid)
         (body (none, none)
           (emit (.uiError ("Failed to initialize " ++ server_name))
             (emit (.sendInitialize w.nextTid)
               (emit (.acquire w.nextTid) { w with nextTid := w.nextTid + 1 })))).2) := by
  unfold with_managed_connection
  rw [hl, ha]
  dsimp only
  rw [hi]

/-- Equation for a `managed_connection` scope in which `send_initialize`
itself raises: the transport is released and the exception propagates
without the body ever running. -/
theorem wmc_run_raised {α : Type} (env : Env) (server_name : String)
    (body : Option Nat × Option Nat → World → Res α × World) (w : World) (e : Exc)
    (hl : env.load_config = .ok ()) (ha : env.acquire w.nextTid = .ok ())
    (hi : env.sendInitialize w.nextTid = .raised e) :
    with_managed_connection env server_name body w =
      (.raised e,
       emit (.release w.nextTid)
         (emit (.sendInitialize w.nextTid)
           (emit (.acquire w.nextTid) { w with nextTid := w.nextTid + 1 }))) := by
  unfold with_managed_connection
  rw [hl, ha]
  dsimp only
  rw [hi]

/-- Equation for a run in which `load_config` raises: nothing is acquired. -/
theorem wmc_run_load_raised {α : Type} (env : Env) (server_name : String)
    (body : Option Nat × Option Nat → World → Res α × World) (w : World) (e : Exc)
    (hl : env.load_config = .raised e) :
    with_managed_connection env server_name body w = (.raised e, w) := by
  unfold with_managed_connection
  rw [hl]

/-- Equation for a run in which the transport launch raises: nothing is
acquired and nothing is released. -/
theorem wmc_run_acquire_raised {α : Type} (env : Env) (server_name : String)
    (body : Option Nat × Option Nat → World → Res α × World) (w : World) (e : Exc)
    (hl : env.load_config = .ok ()) (ha : env.acquire w.nextTid = .raised e) :
    with_managed_connection env server_name body w = (.raised e, w) := by
  unfold with_managed_connection
  rw [hl, ha]

/-- Shape of a completed `managed_connection` scope, for any passive body and
any outcome of the handshake and of the body's own calls: the trace grows by
the acquisition, then the handshake request, then events among which the
scope's transport is released exactly once and no transport is acquired,
re-initialized or released twice; the next scope will use a fresh id. -/
theorem wmc_trace_shape {α : Type} (env : Env) (server_name : String)
    (body : Option Nat × Option Nat → World → Res α × World) (hb : PassiveBody body)
    (w : World) (hl : env.load_config = .ok ()) (ha : env.acquire w.nextTid = .ok ()) :
    ∃ rest,
      (with_managed_connection env server_name body w).2.trace =
        w.trace ++ Event.acquire w.nextTid :: Event.sendInitialize w.nextTid :: rest ∧
      (∀ t, cnt (.acquire t) rest = 0 ∧ cnt (.sendInitialize t) rest = 0 ∧
        cnt (.release t) rest = if t = w.nextTid then 1 else 0) ∧
      (with_managed_connection env server_name body w).2.nextTid = w.nextTid + 1 := by
  cases hi : env.sendInitialize w.nextTid with
  | raised e =>
      rw [wmc_run_raised env server_name body w e hl ha hi]
      refine ⟨[Event.release w.nextTid], ?_, ?_, ?_⟩
      · simp [emit]
      · intro t
        by_cases ht : t = w.nextTid
        · subst ht; simp
        · simp [ht, Ne.symm ht]
      · simp [emit]
  | ok b =>
      cases b with
      | true =>
          obtain ⟨d, hd1, hd2, hd3⟩ := hb (some w.nextTid, some w.nextTid)
            (emit (.sendInitialize w.nextTid)
              (emit (.acquire w.nextTid) { w with nextTid := w.nextTid + 1 }))
          rw [wmc_run_true env server_name body w hl ha hi]
          simp [emit] at hd1 hd2
          refine ⟨d ++ [Event.release w.nextTid], ?_, ?_, ?_⟩
          · simp [emit, hd1]
          · intro t
            obtain ⟨c1, c2, c3⟩ := hd3 t
            by_cases ht : t = w.nextTid
            · subst ht; simp [c1, c2, c3]
            · simp [ht, Ne.symm ht, c1, c2, c3]
          · simp [emit, hd2]
      | false =>
          obtain ⟨d, hd1, hd2, hd3⟩ := hb (none, none)
            (emit (.uiError ("Failed to initialize " ++ server_name))
              (emit (.sendInitialize w.nextTid)
                (emit (.acquire w.nextTid) { w with nextTid := w.nextTid + 1 })))
          rw [wmc_run_false env server_name body w hl ha hi]
          simp [emit] at hd1 hd2
          refine ⟨Event.uiError ("Failed to initialize " ++ server_name) :: (d ++ [Event.release w.nextTid]), ?_, ?_, ?_⟩
          · simp [emit, hd1]
          · intro t
            obtain ⟨c1, c2, c3⟩ := hd3 t
            by_cases ht : t = w.nextTid
            · subst ht; simp [c1, c2, c3]
            · simp [ht, Ne.symm ht, c1, c2, c3]
          · simp [emit, hd2]

/-- The tools rendering loop only emits UI events. -/
theorem printTools_eq (ts : List Tool) (w : World) :
    ∃ d, printTools ts w = { w with trace := w.trace ++ d } ∧
      ∀ t, cnt (.acquire t) d = 0 ∧ cnt (.sendInitialize t) d = 0 ∧
        cnt (.release t) d = 0 := by
  induction ts generalizing w with
  | nil =>
      exact ⟨[], by simp [printTools], by intro t; simp⟩
  | cons t ts ih =>
      obtain ⟨d, hd, hc⟩ := ih (emit (.uiMarkdown ("**" ++ t.name ++ "**: " ++ t.description)) w)
      refine ⟨Event.uiMarkdown ("**" ++ t.name ++ "**: " ++ t.description) :: d, ?_, ?_⟩
      · simp only [printTools, hd]
        simp [emit]
      · intro u
        obtain ⟨c1, c2, c3⟩ := hc u
        simp [c1, c2, c3]

/-- The resources rendering loop only emits UI events. -/
theorem printResources_eq (rs : List String) (w : World) :
    ∃ d, printResources rs w = { w with trace := w.trace ++ d } ∧
      ∀ t, cnt (.acquire t) d = 0 ∧ cnt (.sendInitialize t) d = 0 ∧
        cnt (.release t) d = 0 := by
  induction rs generalizing w with
  | nil =>
      exact ⟨[], by simp [printResources], by intro t; simp⟩
  | cons r rs ih =>
      obtain ⟨d, hd, hc⟩ := ih (emit (.uiJson r) w)
      refine ⟨Event.uiJson r :: d, ?_, ?_⟩
      · simp only [printResources, hd]
        simp [emit]
      · intro u
        obtain ⟨c1, c2, c3⟩ := hc u
        simp [c1, c2, c3]

/-- The chat body is passive: it appends chat messages and UI/`chatCall`
events but never acquires, initializes or releases a transport. -/
theorem chatBody_passive (env : Env) (prompt provider model : String) :
    PassiveBody (chatBody env prompt provider model) := by
  intro s w
  obtain ⟨r, wr⟩ := s
  cases r with
  | none =>
      exact ⟨[], by simp [chatBody], by simp [chatBody], by intro t; simp⟩
  | some rt =>
      cases wr with
      | none =>
          exact ⟨[], by simp [chatBody], by simp [chatBody], by intro t; simp⟩
      | some wt =>
          cases hc : env.handleChatMode rt with
          | ok response =>
              cases response with
              | none =>
                  refine ⟨[Event.uiMarkdown prompt, Event.chatCall rt], ?_, ?_, ?_⟩
                  · simp [chatBody, handle_chat_async, hc, emit, appendMessage]
                  · simp [chatBody, handle_chat_async, hc, emit, appendMessage]
                  · intro t; simp
              | some resp =>
                  by_cases hr : resp = ""
                  · refine ⟨[Event.uiMarkdown prompt, Event.chatCall rt], ?_, ?_, ?_⟩
                    · simp [chatBody, handle_chat_async, hc, hr, emit, appendMessage]
                    · simp [chatBody, handle_chat_async, hc, hr, emit, appendMessage]
                    · intro t; simp
                  · refine ⟨[Event.uiMarkdown prompt, Event.chatCall rt,
                      Event.uiMarkdown resp], ?_, ?_, ?_⟩
                    · simp [chatBody, handle_chat_async, hc, hr, emit, appendMessage]
                    · simp [chatBody, handle_chat_async, hc, hr, emit, appendMessage]
                    · intro t; simp
          | raised e =>
              cases e with
              | err m =>
                  refine ⟨[Event.uiMarkdown prompt, Event.chatCall rt,
                    Event.uiError ("Chat error: " ++ m)], ?_, ?_, ?_⟩
                  · simp [chatBody, handle_chat_async, hc, emit, appendMessage]
                  · simp [chatBody, handle_chat_async, hc, emit, appendMessage]
                  · intro t; simp
              | cancel =>
                  refine ⟨[Event.uiMarkdown prompt, Event.chatCall rt], ?_, ?_, ?_⟩
                  · simp [chatBody, handle_chat_async, hc, emit, appendMessage]
                  · simp [chatBody, handle_chat_async, hc, emit, appendMessage]
                  · intro t; simp

/-- The tools body is passive. -/
theorem toolsBody_passive (env : Env) : PassiveBody (toolsBody env) := by
  intro s w
  obtain ⟨r, wr⟩ := s
  cases r with
  | none =>
      exact ⟨[], by simp [toolsBody], by simp [toolsBody], by intro t; simp⟩
  | some rt =>
      cases wr with
      | none =>
          exact ⟨[], by simp [toolsBody], by simp [toolsBody], by intro t; simp⟩
      | some wt =>
          cases hc : env.sendToolsList rt with
          | ok response =>
              obtain ⟨d, hd, hcnt⟩ := printTools_eq (response.tools.getD [])
                (emit (.sendToolsList rt) w)
              simp [emit] at hd
              refine ⟨Event.sendToolsList rt :: d, ?_, ?_, ?_⟩
              · simp [toolsBody, list_tools_async, hc, emit, hd]
              · simp [toolsBody, list_tools_async, hc, emit, hd]
              · intro t
                obtain ⟨c1, c2, c3⟩ := hcnt t
                simp [c1, c2, c3]
          | raised e =>
              cases e with
              | err m =>
                  refine ⟨[Event.sendToolsList rt,
                    Event.uiError ("Error listing tools: " ++ m)], ?_, ?_, ?_⟩
                  · simp [toolsBody, list_tools_async, hc, emit, printTools]
                  · simp [toolsBody, list_tools_async, hc, emit, printTools]
                  · intro t; simp
              | cancel =>
                  refine ⟨[Event.sendToolsList rt], ?_, ?_, ?_⟩
                  · simp [toolsBody, list_tools_async, hc, emit]
                  · simp [toolsBody, list_tools_async, hc, emit]
                  · intro t; simp

/-- The resources body is passive. -/
theorem resourcesBody_passive (env : Env) : PassiveBody (resourcesBody env) := by
  intro s w
  obtain ⟨r, wr⟩ := s
  cases r with
  | none =>
      exact ⟨[], by simp [resourcesBody], by simp [resourcesBody], by intro t; simp⟩
  | some rt =>
      cases wr with
      | none =>
          exact ⟨[], by simp [resourcesBody], by simp [resourcesBody], by intro t; simp⟩
      | some wt =>
          cases hc : env.sendResourcesList rt with
          | ok response =>
              obtain ⟨d, hd, hcnt⟩ := printResources_eq (response.resources.getD [])
                (emit (.sendResourcesList rt) w)
              simp [emit] at hd
              refine ⟨Event.sendResourcesList rt :: d, ?_, ?_, ?_⟩
              · simp [resourcesBody, list_resources_async, hc, emit, hd]
              · simp [resourcesBody, list_resources_async, hc, emit, hd]
              · intro t
                obtain ⟨c1, c2, c3⟩ := hcnt t
                simp [c1, c2, c3]
          | raised e =>
              cases e with
              | err m =>
                  refine ⟨[Event.sendResourcesList rt,
                    Event.uiError ("Error listing resources: " ++ m)], ?_, ?_, ?_⟩
                  · simp [resourcesBody, list_resources_async, hc, emit, printResources]
                  · simp [resourcesBody, list_resources_async, hc, emit, printResources]
                  · intro t; simp
              | cancel =>
                  refine ⟨[Event.sendResourcesList rt], ?_, ?_, ?_⟩
                  · simp [resourcesBody, list_resources_async, hc, emit]
                  · simp [resourcesBody, list_resources_async, hc, emit]
                  · intro t; simp

/-- The ping body is passive. -/
theorem pingBody_passive (env : Env) : PassiveBody (pingBody env) := by
  intro s w
  obtain ⟨r, wr⟩ := s
  cases r with
  | none =>
      exact ⟨[], by simp [pingBody], by simp [pingBody], by intro t; simp⟩
  | some rt =>
      cases wr with
      | none =>
          exact ⟨[], by simp [pingBody], by simp [pingBody], by intro t; simp⟩
      | some wt =>
          cases hc : env.sendPing rt with
          | ok b =>
              cases b with
              | true =>
                  refine ⟨[Event.sendPing rt, Event.uiSuccess "Server is responsive"], ?_, ?_, ?_⟩
                  · simp [pingBody, hc, emit]
                  · simp [pingBody, hc, emit]
                  · intro t; simp
              | false =>
                  refine ⟨[Event.sendPing rt, Event.uiError "Server is not responding"], ?_, ?_, ?_⟩
                  · simp [pingBody, hc, emit]
                  · simp [pingBody, hc, emit]
                  · intro t; simp
          | raised e =>
              refine ⟨[Event.sendPing rt], ?_, ?_, ?_⟩
              · simp [pingBody, hc, emit]
              · simp [pingBody, hc, emit]
              · intro t; simp

/-- C1: for every call that opens a connection scope (a `managed_connection`
whose `load_config` succeeds and whose `stdio_client` transport is
acquired), the transport is released exactly once when the scope ends — the
environment ranges over every outcome of the handshake and of the
operations inside the scope, including ordinary exceptions (`Exc.err`) and
cancellation (`Exc.cancel`): each of the four interaction handlers adds
exactly one `release` event for the scope's transport to the trace. -/
theorem C1_transport_released_exactly_once (env : Env)
    (cf sn prompt provider model : String) (w : World)
    (hl : env.load_config = .ok ()) (ha : env.acquire w.nextTid = .ok ()) :
    cnt (.release w.nextTid) (process_chat env cf sn prompt provider model w).2.trace
        = cnt (.release w.nextTid) w.trace + 1 ∧
    cnt (.release w.nextTid) (process_tools env cf sn w).2.trace
        = cnt (.release w.nextTid) w.trace + 1 ∧
    cnt (.release w.nextTid) (process_resources env cf sn w).2.trace
        = cnt (.release w.nextTid) w.trace + 1 ∧
    cnt (.release w.nextTid) (process_ping env cf sn w).2.trace
        = cnt (.release w.nextTid) w.trace + 1 := by
  refine ⟨?_, ?_, ?_, ?_⟩
  · obtain ⟨rest, htr, hcnt, _⟩ := wmc_trace_shape env sn _
      (chatBody_passive env prompt provider model) w hl ha
    unfold process_chat
    rw [htr]
    obtain ⟨c1, c2, c3⟩ := hcnt w.nextTid
    simp [c3]
  · obtain ⟨rest, htr, hcnt, _⟩ := wmc_trace_shape env sn _ (toolsBody_passive env) w hl ha
    unfold process_tools
    rw [htr]
    obtain ⟨c1, c2, c3⟩ := hcnt w.nextTid
    simp [c3]
  · obtain ⟨rest, htr, hcnt, _⟩ := wmc_trace_shape env sn _ (resourcesBody_passive env) w hl ha
    unfold process_resources
    rw [htr]
    obtain ⟨c1, c2, c3⟩ := hcnt w.nextTid
    simp [c3]
  · obtain ⟨rest, htr, hcnt, _⟩ := wmc_trace_shape env sn _ (pingBody_passive env) w hl ha
    unfold process_ping
    rw [htr]
    obtain ⟨c1, c2, c3⟩ := hcnt w.nextTid
    simp [c3]

/-- C2: when the handshake returns a falsy result, the scope reports the
failure (`st.error`), yields exactly the unusable pair `(None, None)` to its
body — never live streams — and still releases the transport afterwards:
a `managed_connection` scope with a failed handshake is equal to running its
body on `(none, none)` between the error report and the release event. -/
theorem C2_failed_handshake_yields_nothing_usable {α : Type} (env : Env)
    (sn : String) (body : Option Nat × Option Nat → World → Res α × World)
    (w : World)
    (hl : env.load_config = .ok ()) (ha : env.acquire w.nextTid = .ok ())
    (hi : env.sendInitialize w.nextTid = .ok false) :
    with_managed_connection env sn body w =
      ((body (none, none)
          (emit (.uiError ("Failed to initialize " ++ sn))
            (emit (.sendInitialize w.nextTid)
              (emit (.acquire w.nextTid) { w with nextTid := w.nextTid + 1 })))).1,
       emit (.release w.nextTid)
         (body (none, none)
           (emit (.uiError ("Failed to initialize " ++ sn))
             (emit (.sendInitialize w.nextTid)
               (emit (.acquire w.nextTid) { w with nextTid := w.nextTid + 1 })))).2) :=
  wmc_run_false env sn body w hl ha hi

/-- C5: in every scope that acquires a transport, the handshake request is
the first protocol event issued on it — the trace grows by the acquisition
followed immediately by the handshake — and no further handshake request is
ever issued (on that transport or any other) within the scope, for each of
the four interaction handlers; a second initialize on the same transport
therefore never happens, so the `AlreadyInitialized` rejection is never
triggered. -/
theorem C5_handshake_first_and_once (env : Env)
    (cf sn prompt provider model : String) (w : World)
    (hl : env.load_config = .ok ()) (ha : env.acquire w.nextTid = .ok ()) :
    (∃ rest, (process_chat env cf sn prompt provider model w).2.trace =
        w.trace ++ Event.acquire w.nextTid :: Event.sendInitialize w.nextTid :: rest ∧
        ∀ t, cnt (.sendInitialize t) rest = 0) ∧
    (∃ rest, (process_tools env cf sn w).2.trace =
        w.trace ++ Event.acquire w.nextTid :: Event.sendInitialize w.nextTid :: rest ∧
        ∀ t, cnt (.sendInitialize t) rest = 0) ∧
    (∃ rest, (process_resources env cf sn w).2.trace =
        w.trace ++ Event.acquire w.nextTid :: Event.sendInitialize w.nextTid :: rest ∧
        ∀ t, cnt (.sendInitialize t) rest = 0) ∧
    (∃ rest, (process_ping env cf sn w).2.trace =
        w.trace ++ Event.acquire w.nextTid :: Event.sendInitialize w.nextTid :: rest ∧
        ∀ t, cnt (.sendInitialize t) rest = 0) := by
  refine ⟨?_, ?_, ?_, ?_⟩
  · obtain ⟨rest, htr, hcnt, _⟩ := wmc_trace_shape env sn _
      (chatBody_passive env prompt provider model) w hl ha
    exact ⟨rest, htr, fun t => (hcnt t).2.1⟩
  · obtain ⟨rest, htr, hcnt, _⟩ := wmc_trace_shape env sn _ (toolsBody_passive env) w hl ha
    exact ⟨rest, htr, fun t => (hcnt t).2.1⟩
  · obtain ⟨rest, htr, hcnt, _⟩ := wmc_trace_shape env sn _ (resourcesBody_passive env) w hl ha
    exact ⟨rest, htr, fun t => (hcnt t).2.1⟩
  · obtain ⟨rest, htr, hcnt, _⟩ := wmc_trace_shape env sn _ (pingBody_passive env) w hl ha
    exact ⟨rest, htr, fun t => (hcnt t).2.1⟩

/-- C6: when the scope yields the failed pair `(None, None)`, every call
site's guard (`if read_stream and write_stream:`) skips the body, so no
protocol operation is issued on the transport: each of the four handlers
produces exactly the acquisition, the handshake, the error report and the
release — no `sendPing`, `sendToolsList`, `sendResourcesList` or `chatCall`
event — and finishes without an exception. -/
theorem C6_no_ops_on_failed_session (env : Env)
    (cf sn prompt provider model : String) (w : World)
    (hl : env.load_config = .ok ()) (ha : env.acquire w.nextTid = .ok ())
    (hi : env.sendInitialize w.nextTid = .ok false) :
    process_chat env cf sn prompt provider model w =
      (.ok (), { w with
        nextTid := w.nextTid + 1
        trace := w.trace ++ [.acquire w.nextTid, .sendInitialize w.nextTid,
          .uiError ("Failed to initialize " ++ sn), .release w.nextTid] }) ∧
    process_tools env cf sn w =
      (.ok (), { w with
        nextTid := w.nextTid + 1
        trace := w.trace ++ [.acquire w.nextTid, .sendInitialize w.nextTid,
          .uiError ("Failed to initialize " ++ sn), .release w.nextTid] }) ∧
    process_resources env cf sn w =
      (.ok (), { w with
        nextTid := w.nextTid + 1
        trace := w.trace ++ [.acquire w.nextTid, .sendInitialize w.nextTid,
          .uiError ("Failed to initialize " ++ sn), .release w.nextTid] }) ∧
    process_ping env cf sn w =
      (.ok (), { w with
        nextTid := w.nextTid + 1
        trace := w.trace ++ [.acquire w.nextTid, .sendInitialize w.nextTid,
          .uiError ("Failed to initialize " ++ sn), .release w.nextTid] }) := by
  refine ⟨?_, ?_, ?_, ?_⟩
  · unfold process_chat
    rw [wmc_run_false env sn _ w hl ha hi]
    simp [chatBody, emit]
  · unfold process_tools
    rw [wmc_run_false env sn _ w hl ha hi]
    simp [toolsBody, emit]
  · unfold process_resources
    rw [wmc_run_false env sn _ w hl ha hi]
    simp [resourcesBody, emit]
  · unfold process_ping
    rw [wmc_run_false env sn _ w hl ha hi]
    simp [pingBody, emit]

/-- C4: on a session whose handshake succeeded, the ping interaction
consumes the boolean returned by `send_ping` — displaying success for
`true` and an error for `false` (a timeout, per the spec's contract) — and
finishes without raising (`Res.ok ()`); after a ping that came back
`false`, a subsequent tools interaction on a fresh scope still completes
normally, so the app remains usable for other operations. -/
theorem C4_ping_bool_and_usable_after (env : Env) (cf sn : String) (w : World)
    (b : Bool) (resp : ToolsResponse)
    (hl : env.load_config = .ok ())
    (ha1 : env.acquire w.nextTid = .ok ())
    (hi1 : env.sendInitialize w.nextTid = .ok true)
    (hp : env.sendPing w.nextTid = .ok b)
    (ha2 : env.acquire (w.nextTid + 1) = .ok ())
    (hi2 : env.sendInitialize (w.nextTid + 1) = .ok true)
    (ht : env.sendToolsList (w.nextTid + 1) = .ok resp) :
    process_ping env cf sn w =
      (.ok (), { w with
        nextTid := w.nextTid + 1
        trace := w.trace ++ [.acquire w.nextTid, .sendInitialize w.nextTid,
          .sendPing w.nextTid,
          (if b then Event.uiSuccess "Server is responsive"
            else Event.uiError "Server is not responding"),
          .release w.nextTid] }) ∧
    (process_tools env cf sn (process_ping env cf sn w).2).1 = .ok () := by
  have h1 : process_ping env cf sn w =
      (.ok (), { w with
        nextTid := w.nextTid + 1
        trace := w.trace ++ [.acquire w.nextTid, .sendInitialize w.nextTid,
          .sendPing w.nextTid,
          (if b then Event.uiSuccess "Server is responsive"
            else Event.uiError "Server is not responding"),
          .release w.nextTid] }) := by
    unfold process_ping
    rw [wmc_run_true env sn _ w hl ha1 hi1]
    cases b <;> simp [pingBody, hp, emit]
  refine ⟨h1, ?_⟩
  rw [h1]
  unfold process_tools
  rw [wmc_run_true env sn _ _ hl ha2 hi2]
  simp [toolsBody, list_tools_async, ht, emit]

/-- C8: whenever `ensure_connection_async` returns a non-`None` stream pair
(handshake truthy, ping truthy), the `return` inside the `async with` has
already torn the scope down: the `release` event for the transport backing
the returned streams is in the trace at the moment the caller receives
them — in fact it is the last event of the call. -/
theorem C8_streams_returned_after_release (env : Env) (cf sn : String)
    (w : World)
    (hl : env.load_config = .ok ()) (ha : env.acquire w.nextTid = .ok ())
    (hi : env.sendInitialize w.nextTid = .ok true)
    (hp : env.sendPing w.nextTid = .ok true) :
    ensure_connection_async env cf sn w =
      (.ok (some w.nextTid, some w.nextTid), { w with
        nextTid := w.nextTid + 1
        trace := w.trace ++ [.acquire w.nextTid, .sendInitialize w.nextTid,
          .sendPing w.nextTid, .release w.nextTid] }) := by
  unfold ensure_connection_async
  rw [wmc_run_true env sn _ w hl ha hi]
  simp [ensureBody, hp, emit]

/-- C9: the chat history (`st.session_state.messages`) is untouched when the
configuration load, the transport launch or the handshake fails; once a
ready connection is obtained, the user's prompt is appended, and an
assistant message is appended if and only if the chat handler returns a
truthy response — on a chat exception or a falsy response (`None` or the
empty string), exactly the user message is appended and nothing else. -/
theorem C9_chat_message_list_effects (env : Env)
    (cf sn prompt provider model : String) (w : World) :
    (∀ e, env.load_config = .raised e →
      (process_chat env cf sn prompt provider model w).2.messages = w.messages) ∧
    (∀ e, env.load_config = .ok () → env.acquire w.nextTid = .raised e →
      (process_chat env cf sn prompt provider model w).2.messages = w.messages) ∧
    (∀ e, env.load_config = .ok () → env.acquire w.nextTid = .ok () →
      env.sendInitialize w.nextTid = .raised e →
      (process_chat env cf sn prompt provider model w).2.messages = w.messages) ∧
    (env.load_config = .ok () → env.acquire w.nextTid = .ok () →
      env.sendInitialize w.nextTid = .ok false →
      (process_chat env cf sn prompt provider model w).2.messages = w.messages) ∧
    (env.load_config = .ok () → env.acquire w.nextTid = .ok () →
      env.sendInitialize w.nextTid = .ok true →
      (∀ m, env.handleChatMode w.nextTid = .raised (.err m) →
        (process_chat env cf sn prompt provider model w).2.messages =
          w.messages ++ [{ role := "user", content := prompt }]) ∧
      (env.handleChatMode w.nextTid = .raised .cancel →
        (process_chat env cf sn prompt provider model w).2.messages =
          w.messages ++ [{ role := "user", content := prompt }]) ∧
      (env.handleChatMode w.nextTid = .ok none →
        (process_chat env cf sn prompt provider model w).2.messages =
          w.messages ++ [{ role := "user", content := prompt }]) ∧
      (env.handleChatMode w.nextTid = .ok (some "") →
        (process_chat env cf sn prompt provider model w).2.messages =
          w.messages ++ [{ role := "user", content := prompt }]) ∧
      (∀ resp, env.handleChatMode w.nextTid = .ok (some resp) → resp ≠ "" →
        (process_chat env cf sn prompt provider model w).2.messages =
          w.messages ++ [{ role := "user", content := prompt },
            { role := "assistant", content := resp }])) := by
  refine ⟨?_, ?_, ?_, ?_, ?_⟩
  · intro e hl
    unfold process_chat
    rw [wmc_run_load_raised env sn _ w e hl]
  · intro e hl ha
    unfold process_chat
    rw [wmc_run_acquire_raised env sn _ w e hl ha]
  · intro e hl ha hi
    unfold process_chat
    rw [wmc_run_raised env sn _ w e hl ha hi]
    simp [emit]
  · intro hl ha hi
    unfold process_chat
    rw [wmc_run_false env sn _ w hl ha hi]
    simp [chatBody, emit]
  · intro hl ha hi
    refine ⟨?_, ?_, ?_, ?_, ?_⟩
    · intro m hc
      unfold process_chat
      rw [wmc_run_true env sn _ w hl ha hi]
      simp [chatBody, handle_chat_async, hc, emit, appendMessage]
    · intro hc
      unfold process_chat
      rw [wmc_run_true env sn _ w hl ha hi]
      simp [chatBody, handle_chat_async, hc, emit, appendMessage]
    · intro hc
      unfold process_chat
      rw [wmc_run_true env sn _ w hl ha hi]
      simp [chatBody, handle_chat_async, hc, emit, appendMessage]
    · intro hc
      unfold process_chat
      rw [wmc_run_true env sn _ w hl ha hi]
      simp [chatBody, handle_chat_async, hc, emit, appendMessage]
    · intro resp hc hr
      unfold process_chat
      rw [wmc_run_true env sn _ w hl ha hi]
      simp [chatBody, handle_chat_async, hc, hr, emit, appendMessage]

/-- C7: two consecutive user interactions (here a chat prompt followed by a
List Tools press) open independent connection scopes: the first scope
acquires and releases its own transport exactly once within its trace
segment `d1`, the second within its segment `d2`; neither segment touches
the other's transport, the segments are disjoint and ordered (so the first
scope's release precedes the second scope's acquisition), and the two
transport ids differ. -/
theorem C7_independent_scopes_per_interaction (env : Env)
    (cf sn prompt provider model : String) (w : World)
    (hl : env.load_config = .ok ())
    (ha1 : env.acquire w.nextTid = .ok ())
    (ha2 : env.acquire (w.nextTid + 1) = .ok ()) :
    ∃ d1 d2,
      (process_chat env cf sn prompt provider model w).2.trace = w.trace ++ d1 ∧
      (process_tools env cf sn
        (process_chat env cf sn prompt provider model w).2).2.trace
          = w.trace ++ d1 ++ d2 ∧
      cnt (.acquire w.nextTid) d1 = 1 ∧ cnt (.release w.nextTid) d1 = 1 ∧
      cnt (.acquire (w.nextTid + 1)) d1 = 0 ∧
      cnt (.release (w.nextTid + 1)) d1 = 0 ∧
      cnt (.acquire (w.nextTid + 1)) d2 = 1 ∧
      cnt (.release (w.nextTid + 1)) d2 = 1 ∧
      cnt (.acquire w.nextTid) d2 = 0 ∧ cnt (.release w.nextTid) d2 = 0 ∧
      w.nextTid ≠ w.nextTid + 1 := by
  have hne : w.nextTid ≠ w.nextTid + 1 := by omega
  have hne' : w.nextTid + 1 ≠ w.nextTid := by omega
  obtain ⟨r1, h1tr, h1cnt, h1tid⟩ := wmc_trace_shape env sn _
    (chatBody_passive env prompt provider model) w hl ha1
  obtain ⟨r2, h2tr, h2cnt, h2tid⟩ := wmc_trace_shape env sn _
    (toolsBody_passive env)
    (with_managed_connection env sn (chatBody env prompt provider model) w).2
    hl (by rw [h1tid]; exact ha2)
  rw [h1tid] at h2tr h2cnt
  refine ⟨Event.acquire w.nextTid :: Event.sendInitialize w.nextTid :: r1,
    Event.acquire (w.nextTid + 1) :: Event.sendInitialize (w.nextTid + 1) :: r2,
    ?_, ?_, ?_, ?_, ?_, ?_, ?_, ?_, ?_, ?_, hne⟩
  · exact h1tr
  · show (with_managed_connection env sn (toolsBody env)
      (with_managed_connection env sn (chatBody env prompt provider model) w).2).2.trace = _
    rw [h2tr, h1tr]
  · simp [(h1cnt w.nextTid).1]
  · simp [(h1cnt w.nextTid).2.2]
  · simp [(h1cnt (w.nextTid + 1)).1, hne]
  · simp [(h1cnt (w.nextTid + 1)).2.2, hne']
  · simp [(h2cnt (w.nextTid + 1)).1]
  · simp [(h2cnt (w.nextTid + 1)).2.2]
  · simp [(h2cnt w.nextTid).1, hne']
  · simp [(h2cnt w.nextTid).2.2, hne]

/-- C3 counterexample: a `tools/list` exchange that fails with an exception
(transport closed mid-exchange) does not return a `Failure` — the
`except Exception` handler returns the empty list, the very value an empty
tool set returns — so the result of `list_tools_async` does not distinguish
an empty tool set from a failed exchange. -/
theorem C3_counterexample :
    (list_tools_async envToolsClosed 0 0 w0).1 = .ok [] ∧
    (list_tools_async envNoTools 0 0 w0).1 = .ok [] ∧
    (list_tools_async envToolsClosed 0 0 w0).1 =
      (list_tools_async envNoTools 0 0 w0).1 :=
  ⟨rfl, rfl, rfl⟩

/-- C3 (amended): `list_tools_async` returns the list under the `"tools"`
key (the empty list when the server declares none, or when the key is
absent), and when the exchange raises an ordinary exception — malformed
response or transport closed — it reports the error via `st.error` and
returns the empty list as well, so the returned value does not distinguish
an empty tool set from a failed exchange; `list_resources_async` behaves
analogously. -/
theorem C3_list_ops_failure_is_empty_list (env : Env) (rs ws : Nat) (w : World) :
    (∀ resp, env.sendToolsList rs = .ok resp →
      list_tools_async env rs ws w =
        (.ok (resp.tools.getD []), emit (.sendToolsList rs) w)) ∧
    (∀ m, env.sendToolsList rs = .raised (.err m) →
      list_tools_async env rs ws w =
        (.ok [], emit (.uiError ("Error listing tools: " ++ m))
          (emit (.sendToolsList rs) w))) ∧
    (∀ resp, env.sendResourcesList rs = .ok resp →
      list_resources_async env rs ws w =
        (.ok (resp.resources.getD []), emit (.sendResourcesList rs) w)) ∧
    (∀ m, env.sendResourcesList rs = .raised (.err m) →
      list_resources_async env rs ws w =
        (.ok [], emit (.uiError ("Error listing resources: " ++ m))
          (emit (.sendResourcesList rs) w))) := by
  refine ⟨?_, ?_, ?_, ?_⟩
  · intro resp h
    simp [list_tools_async, h]
  · intro m h
    simp [list_tools_async, h]
  · intro resp h
    simp [list_resources_async, h]
  · intro m h
    simp [list_resources_async, h]

/-- C10: `get_server_names` is total over every state the config file can
be in: it never lets an exception escape — the result is always `Res.ok` —
returning the keys of the `"mcpServers"` object on success and the empty
list in every error case (missing or unreadable file, malformed JSON,
non-object JSON, non-object `"mcpServers"` value) and when no servers are
configured. -/
theorem C10_get_server_names_total (cf : ConfigFile) (w : World) :
    (∃ names, (get_server_names cf w).1 = .ok names) ∧
    (∀ servers, cf = ConfigFile.parsed (some servers) →
      (get_server_names cf w).1 = .ok servers) ∧
    ((∀ servers, cf ≠ ConfigFile.parsed (some servers)) →
      (get_server_names cf w).1 = .ok []) := by
  cases cf with
  | parsed servers =>
      cases servers with
      | none =>
          refine ⟨⟨[], rfl⟩, ?_, fun _ => rfl⟩
          intro s h
          simp at h
      | some names =>
          refine ⟨⟨names, rfl⟩, ?_, ?_⟩
          · intro s h
            simp at h
            subst h
            rfl
          · intro h
            exact absurd rfl (h names)
  | missing =>
      refine ⟨⟨[], rfl⟩, ?_, fun _ => rfl⟩
      intro s h
      simp at h
  | unreadable =>
      refine ⟨⟨[], rfl⟩, ?_, fun _ => rfl⟩
      intro s h
      simp at h
  | malformedJson =>
      refine ⟨⟨[], rfl⟩, ?_, fun _ => rfl⟩
      intro s h
      simp at h
  | notAnObject =>
      refine ⟨⟨[], rfl⟩, ?_, fun _ => rfl⟩
      intro s h
      simp at h
  | badServersValue =>
      refine ⟨⟨[], rfl⟩, ?_, fun _ => rfl⟩
      intro s h
      simp at h

/-- Witness for C1 at a concrete environment and world. -/
theorem C1_witness :
    cnt (.release w0.nextTid)
      (process_chat envAllOk "server_config.json" "sqlite" "hi" "openai" "gpt-4o" w0).2.trace
        = cnt (.release w0.nextTid) w0.trace + 1 ∧
    cnt (.release w0.nextTid) (process_tools envAllOk "server_config.json" "sqlite" w0).2.trace
        = cnt (.release w0.nextTid) w0.trace + 1 ∧
    cnt (.release w0.nextTid) (process_resources envAllOk "server_config.json" "sqlite" w0).2.trace
        = cnt (.release w0.nextTid) w0.trace + 1 ∧
    cnt (.release w0.nextTid) (process_ping envAllOk "server_config.json" "sqlite" w0).2.trace
        = cnt (.release w0.nextTid) w0.trace + 1 :=
  C1_transport_released_exactly_once envAllOk "server_config.json" "sqlite" "hi"
    "openai" "gpt-4o" w0 rfl rfl

/-- Witness for C2 at a concrete environment, body and world. -/
theorem C2_witness :
    with_managed_connection envInitFalse "sqlite" (toolsBody envInitFalse) w0 =
      ((toolsBody envInitFalse (none, none)
          (emit (.uiError ("Failed to initialize " ++ "sqlite"))
            (emit (.sendInitialize w0.nextTid)
              (emit (.acquire w0.nextTid) { w0 with nextTid := w0.nextTid + 1 })))).1,
       emit (.release w0.nextTid)
         (toolsBody envInitFalse (none, none)
           (emit (.uiError ("Failed to initialize " ++ "sqlite"))
             (emit (.sendInitialize w0.nextTid)
               (emit (.acquire w0.nextTid) { w0 with nextTid := w0.nextTid + 1 })))).2) :=
  C2_failed_handshake_yields_nothing_usable envInitFalse "sqlite"
    (toolsBody envInitFalse) w0 rfl rfl rfl

/-- Witness for C3 (amended) at concrete environments. -/
theorem C3_witness :
    list_tools_async envAllOk 0 0 w0 =
      (.ok [{ name := "query", description := "Run a SQL query" }],
        emit (.sendToolsList 0) w0) ∧
    list_tools_async envToolsClosed 0 0 w0 =
      (.ok [], emit (.uiError ("Error listing tools: " ++ "TransportClosed"))
        (emit (.sendToolsList 0) w0)) ∧
    list_resources_async envAllOk 0 0 w0 =
      (.ok ["memo"], emit (.sendResourcesList 0) w0) ∧
    list_resources_async envResourcesClosed 0 0 w0 =
      (.ok [], emit (.uiError ("Error listing resources: " ++ "TransportClosed"))
        (emit (.sendResourcesList 0) w0)) :=
  ⟨(C3_list_ops_failure_is_empty_list envAllOk 0 0 w0).1 _ rfl,
   (C3_list_ops_failure_is_empty_list envToolsClosed 0 0 w0).2.1 "TransportClosed" rfl,
   (C3_list_ops_failure_is_empty_list envAllOk 0 0 w0).2.2.1 _ rfl,
   (C3_list_ops_failure_is_empty_list envResourcesClosed 0 0 w0).2.2.2 "TransportClosed" rfl⟩

/-- Witness for C4 at a concrete environment with a timed-out ping. -/
theorem C4_witness :
    process_ping envPingFalse "server_config.json" "sqlite" w0 =
      (.ok (), { w0 with
        nextTid := w0.nextTid + 1
        trace := w0.trace ++ [.acquire w0.nextTid, .sendInitialize w0.nextTid,
          .sendPing w0.nextTid,
          (if false then Event.uiSuccess "Server is responsive"
            else Event.uiError "Server is not responding"),
          .release w0.nextTid] }) ∧
    (process_tools envPingFalse "server_config.json" "sqlite"
      (process_ping envPingFalse "server_config.json" "sqlite" w0).2).1 = .ok () :=
  C4_ping_bool_and_usable_after envPingFalse "server_config.json" "sqlite" w0
    false { tools := some [{ name := "query", description := "Run a SQL query" }] }
    rfl rfl rfl rfl rfl rfl rfl

/-- Witness for C5 at a concrete environment and world. -/
theorem C5_witness :
    (∃ rest, (process_chat envAllOk "server_config.json" "sqlite" "hi" "openai"
        "gpt-4o" w0).2.trace =
        w0.trace ++ Event.acquire w0.nextTid :: Event.sendInitialize w0.nextTid :: rest ∧
        ∀ t, cnt (.sendInitialize t) rest = 0) ∧
    (∃ rest, (process_tools envAllOk "server_config.json" "sqlite" w0).2.trace =
        w0.trace ++ Event.acquire w0.nextTid :: Event.sendInitialize w0.nextTid :: rest ∧
        ∀ t, cnt (.sendInitialize t) rest = 0) ∧
    (∃ rest, (process_resources envAllOk "server_config.json" "sqlite" w0).2.trace =
        w0.trace ++ Event.acquire w0.nextTid :: Event.sendInitialize w0.nextTid :: rest ∧
        ∀ t, cnt (.sendInitialize t) rest = 0) ∧
    (∃ rest, (process_ping envAllOk "server_config.json" "sqlite" w0).2.trace =
        w0.trace ++ Event.acquire w0.nextTid :: Event.sendInitialize w0.nextTid :: rest ∧
        ∀ t, cnt (.sendInitialize t) rest = 0) :=
  C5_handshake_first_and_once envAllOk "server_config.json" "sqlite" "hi" "openai"
    "gpt-4o" w0 rfl rfl

/-- Witness for C6 at a concrete environment whose handshake fails. -/
theorem C6_witness :
    process_chat envInitFalse "server_config.json" "sqlite" "hi" "openai" "gpt-4o" w0 =
      (.ok (), { w0 with
        nextTid := w0.nextTid + 1
        trace := w0.trace ++ [.acquire w0.nextTid, .sendInitialize w0.nextTid,
          .uiError ("Failed to initialize " ++ "sqlite"), .release w0.nextTid] }) ∧
    process_tools envInitFalse "server_config.json" "sqlite" w0 =
      (.ok (), { w0 with
        nextTid := w0.nextTid + 1
        trace := w0.trace ++ [.acquire w0.nextTid, .sendInitialize w0.nextTid,
          .uiError ("Failed to initialize " ++ "sqlite"), .release w0.nextTid] }) ∧
    process_resources envInitFalse "server_config.json" "sqlite" w0 =
      (.ok (), { w0 with
        nextTid := w0.nextTid + 1
        trace := w0.trace ++ [.acquire w0.nextTid, .sendInitialize w0.nextTid,
          .uiError ("Failed to initialize " ++ "sqlite"), .release w0.nextTid] }) ∧
    process_ping envInitFalse "server_config.json" "sqlite" w0 =
      (.ok (), { w0 with
        nextTid := w0.nextTid + 1
        trace := w0.trace ++ [.acquire w0.nextTid, .sendInitialize w0.nextTid,
          .uiError ("Failed to initialize " ++ "sqlite"), .release w0.nextTid] }) :=
  C6_no_ops_on_failed_session envInitFalse "server_config.json" "sqlite" "hi"
    "openai" "gpt-4o" w0 rfl rfl rfl

/-- Witness for C7 at a concrete environment and world. -/
theorem C7_witness :
    ∃ d1 d2,
      (process_chat envAllOk "server_config.json" "sqlite" "hi" "openai" "gpt-4o"
        w0).2.trace = w0.trace ++ d1 ∧
      (process_tools envAllOk "server_config.json" "sqlite"
        (process_chat envAllOk "server_config.json" "sqlite" "hi" "openai" "gpt-4o"
          w0).2).2.trace
          = w0.trace ++ d1 ++ d2 ∧
      cnt (.acquire w0.nextTid) d1 = 1 ∧ cnt (.release w0.nextTid) d1 = 1 ∧
      cnt (.acquire (w0.nextTid + 1)) d1 = 0 ∧
      cnt (.release (w0.nextTid + 1)) d1 = 0 ∧
      cnt (.acquire (w0.nextTid + 1)) d2 = 1 ∧
      cnt (.release (w0.nextTid + 1)) d2 = 1 ∧
      cnt (.acquire w0.nextTid) d2 = 0 ∧ cnt (.release w0.nextTid) d2 = 0 ∧
      w0.nextTid ≠ w0.nextTid + 1 :=
  C7_independent_scopes_per_interaction envAllOk "server_config.json" "sqlite"
    "hi" "openai" "gpt-4o" w0 rfl rfl rfl

/-- Witness for C8 at a concrete environment and world. -/
theorem C8_witness :
    ensure_connection_async envAllOk "server_config.json" "sqlite" w0 =
      (.ok (some w0.nextTid, some w0.nextTid), { w0 with
        nextTid := w0.nextTid + 1
        trace := w0.trace ++ [.acquire w0.nextTid, .sendInitialize w0.nextTid,
          .sendPing w0.nextTid, .release w0.nextTid] }) :=
  C8_streams_returned_after_release envAllOk "server_config.json" "sqlite" w0
    rfl rfl rfl rfl

/-- Witness for C9: a successful chat appends exactly the user and assistant
messages. -/
theorem C9_witness :
    (process_chat envAllOk "server_config.json" "sqlite" "hi" "openai" "gpt-4o"
      w0).2.messages =
      w0.messages ++ [{ role := "user", content := "hi" },
        { role := "assistant", content := "hello" }] :=
  ((C9_chat_message_list_effects envAllOk "server_config.json" "sqlite" "hi"
    "openai" "gpt-4o" w0).2.2.2.2 rfl rfl rfl).2.2.2.2 "hello" rfl (by decide)

/-- Witness for C10 at a parsed config with two servers and a missing file. -/
theorem C10_witness :
    (get_server_names (ConfigFile.parsed (some ["sqlite", "filesystem"])) w0).1 =
      .ok ["sqlite", "filesystem"] ∧
    (get_server_names ConfigFile.missing w0).1 = .ok [] :=
  ⟨(C10_get_server_names_total (ConfigFile.parsed (some ["sqlite", "filesystem"]))
      w0).2.1 ["sqlite", "filesystem"] rfl,
   (C10_get_server_names_total ConfigFile.missing w0).2.2
     (fun _ h => ConfigFile.noConfusion h)⟩

end MCPApp
